import Mathlib

/-!
Verification of `pkg/retry/retry.go`: the exponential-backoff retry loop
`RetryIfNecessary` and the error classifier `isRetryable`.

Errors are modelled as an inductive type `GoError` with one constructor per
error shape the Go code distinguishes in its type switch; the classifier and
the loop are translated function-by-function from the source.
-/

namespace Retry

/-- Model of the Go error values that `isRetryable` distinguishes.  One
constructor per branch of the type switch in `retry.go`, plus the sentinel
values compared against (`context.Canceled`, `context.DeadlineExceeded`,
`io.EOF`) and a catch-all `errorString` for errors with none of the
recognised structures (for example a plain error built by `errors.New`). -/
inductive GoError where
  /-- The `context.Canceled` sentinel error. -/
  | contextCanceled : GoError
  /-- The `context.DeadlineExceeded` sentinel error. -/
  | contextDeadlineExceeded : GoError
  /-- An `errcode.Error` carrying a registry error code (its `Code` field). -/
  | errcodeError (code : String) : GoError
  /-- A `*net.OpError` wrapping an inner error (its `Err` field). -/
  | netOpError (err : GoError) : GoError
  /-- A `*url.Error` wrapping an inner error (its `Err` field). -/
  | urlError (err : GoError) : GoError
  /-- The `io.EOF` sentinel error. -/
  | ioEOF : GoError
  /-- A raw `syscall.Errno` with its numeric code. -/
  | errno (code : Nat) : GoError
  /-- An `errcode.Errors` aggregate: a slice of sub-errors. -/
  | errcodeErrors (errs : List GoError) : GoError
  /-- A `*multierror.Error` aggregate (its `Errors` slice). -/
  | multierrorError (errs : List GoError) : GoError
  /-- An error whose only recognised capability is the Go 1.13
  `Unwrap() error` method (the `unwrapper` interface case). -/
  | unwrapOnce (err : GoError) : GoError
  /-- A `github.com/pkg/errors`-style wrapper exposing a `Cause() error`
  method; `errors.Cause` strips chains of these. -/
  | causeWrapped (err : GoError) : GoError
  /-- Any other error with no recognised structure. -/
  | errorString (msg : String) : GoError

/-- `errcode.ErrorCodeUnauthorized` from the registry error vocabulary. -/
def ErrorCodeUnauthorized : String := "UNAUTHORIZED"

/-- `errcodev2.ErrorCodeNameUnknown` ("name unknown"). -/
def ErrorCodeNameUnknown : String := "NAME_UNKNOWN"

/-- `errcodev2.ErrorCodeManifestUnknown` ("manifest unknown"). -/
def ErrorCodeManifestUnknown : String := "MANIFEST_UNKNOWN"

/-- `syscall.ECONNREFUSED` (numeric value on Linux). -/
def ECONNREFUSED : Nat := 111

/-- `errors.Cause` from `github.com/pkg/errors`: repeatedly unwrap while the
error exposes a `Cause() error` method, returning the root cause. -/
def Cause : GoError → GoError
  | .causeWrapped err => Cause err
  | e => e

mutual

/-- `isRetryable` from `retry.go`.  The source first replaces `err` by
`errors.Cause(err)`; since a `causeWrapped` chain therefore never reaches the
type switch, that call is inlined here as the first match arm (see
`isRetryable_Cause`).  The remaining arms are the two sentinel comparisons and
the type switch, branch for branch:
  * `errcode.Error`: not retryable exactly for the codes unauthorized,
    name unknown, manifest unknown; retryable for every other code;
  * `*net.OpError`: recurse on the inner error;
  * `*url.Error`: if the inner error is exactly `io.EOF`, retryable without
    recursing; otherwise recurse on the inner error;
  * `syscall.Errno`: retryable unless `ECONNREFUSED`;
  * `errcode.Errors` and `*multierror.Error`: retryable only if every
    sub-error is retryable (the source loops with an early `return false`,
    which is the short-circuiting `isRetryableAll`);
  * `unwrapper`: recurse on the unwrapped error;
  * anything else: not retryable. -/
def isRetryable : GoError → Bool
  | .causeWrapped err => isRetryable err
  | .contextCanceled => false
  | .contextDeadlineExceeded => false
  | .errcodeError code =>
      if code = ErrorCodeUnauthorized ∨ code = ErrorCodeNameUnknown
          ∨ code = ErrorCodeManifestUnknown then
        false
      else
        true
  | .netOpError err => isRetryable err
  | .urlError .ioEOF => true
  | .urlError err => isRetryable err
  | .errno code => code != ECONNREFUSED
  | .errcodeErrors errs => isRetryableAll errs
  | .multierrorError errs => isRetryableAll errs
  | .unwrapOnce err => isRetryable err
  | .ioEOF => false
  | .errorString _ => false

/-- The `for i := range e { if !isRetryable(e[i]) { return false } }` loops of
the two aggregate branches: true only if every element is retryable,
short-circuiting on the first non-retryable one. -/
def isRetryableAll : List GoError → Bool
  | [] => true
  | e :: rest => isRetryable e && isRetryableAll rest

end

/-- `time.Second`, in nanoseconds (the unit of `time.Duration`). -/
def Second : Int := 1000000000

/-- Reduction of an integer to the two's-complement signed 64-bit range:
the result of Go's wrapping int64 arithmetic. -/
def wrapInt64 (n : Int) : Int :=
  (n + 2 ^ 63) % 2 ^ 64 - 2 ^ 63

/-- The `delay` computed at line 28 of `retry.go`,
`time.Duration(int(math.Pow(2, float64(attempt)))) * time.Second`, in
nanoseconds.  `math.Pow(2, float64(attempt))` is exactly `2 ^ attempt` (a
power of two well inside float64 range); the conversion to `int` is exact
while the value fits in int64, i.e. for `attempt ≤ 62` (for larger values Go
leaves the out-of-range conversion implementation-defined, and this model
wraps; no theorem below depends on that region); and the multiplication by
`time.Second` is Go's wrapping int64 multiplication.  The product overflows
int64 from `attempt = 34` on, where the resulting Duration is negative. -/
def goDelay (attempt : Nat) : Int :=
  wrapInt64 (wrapInt64 (2 ^ attempt) * Second)

/-- The observable outcome of one run of `RetryIfNecessary`:
  * `result`: the returned error (`none` models a `nil` return);
  * `invocations`: how many times `operation()` was called in total;
  * `notices`: one entry per diagnostic notice emitted by the
    `logrus.Infof` call, recording the Duration (in nanoseconds) it
    reports, in emission order;
  * `cancelled`: whether the run returned through the `<-ctx.Done()`
    branch of the `select`. -/
structure RunResult where
  result : Option GoError
  invocations : Nat
  notices : List Int
  cancelled : Bool

/-- The `for` loop of `RetryIfNecessary`.  The operation is modelled as the
deterministic sequence `op : Nat → Option GoError` of its results (`op i` is
what the `(i+1)`-th call returns, `none` meaning success); `cancel attempt`
tells whether, during the wait of the loop iteration with counter value
`attempt`, the `<-ctx.Done()` arm of the `select` fires before
`<-time.After(delay)`.

State: `attempt` is the source's loop counter, `err` the current error,
`invs` the number of calls to `operation()` made so far, `notices` the
notices emitted so far.  The loop guard
`err != nil && isRetryable(err) && attempt < retryOptions.MaxRetry`
appears verbatim (as the `err` match plus the `if`); since `attempt` only
increases, the body can run at most `(maxRetry - attempt).toNat` more times,
and that count is carried as the extra structurally decreasing argument
`fuel`, kept equal to `(maxRetry - attempt).toNat` at every call site, so the
`fuel = 0` arm below (which returns the same exhaustion exit) is never
reached with the guard true.

The delay of iteration `attempt` is `goDelay attempt` (the source's int64
Duration computation, wrapping included); the notice is emitted before the
`select`, so it is recorded on the cancellation path as well, and `break` in
the `time.After` arm leaves only the `select`, after which
`err = operation()` runs. -/
def retryLoop (op : Nat → Option GoError) (cancel : Nat → Bool) (maxRetry : Int) :
    Nat → Nat → Option GoError → Nat → List Int → RunResult
  | _, _, none, invs, notices => ⟨none, invs, notices, false⟩
  | fuel, attempt, some e, invs, notices =>
      if isRetryable e = true ∧ (attempt : Int) < maxRetry then
        match fuel with
        | 0 => ⟨some e, invs, notices, false⟩
        | fuel' + 1 =>
            if cancel attempt then
              ⟨some e, invs, notices ++ [goDelay attempt], true⟩
            else
              retryLoop op cancel maxRetry fuel' (attempt + 1) (op invs) (invs + 1)
                (notices ++ [goDelay attempt])
      else
        ⟨some e, invs, notices, false⟩

/-- `RetryIfNecessary` from `retry.go`: call `operation()` once
unconditionally, then enter the loop with `attempt = 0`.  At entry
`fuel = (maxRetry - 0).toNat = maxRetry.toNat`. -/
def RetryIfNecessary (op : Nat → Option GoError) (cancel : Nat → Bool)
    (maxRetry : Int) : RunResult :=
  retryLoop op cancel maxRetry maxRetry.toNat 0 (op 0) 1 []

example : isRetryable (.errcodeError "TOOMANYREQUESTS") = true := by decide
example : isRetryable (.errcodeError "UNAUTHORIZED") = false := by decide
example : isRetryable (.urlError .ioEOF) = true := by decide
example : isRetryable (.netOpError .ioEOF) = false := by decide
example : isRetryable (.errno 111) = false := by decide
example : isRetryable (.errno 104) = true := by decide
example : isRetryable (.errcodeErrors [.errno 104, .errno 111]) = false := by decide
example : isRetryable (.multierrorError [.errno 104, .errorString "x"]) = false := by decide
example : isRetryable (.multierrorError []) = true := by decide
example : isRetryable (.causeWrapped (.errcodeError "UNAUTHORIZED")) = false := by decide

example :
    (RetryIfNecessary (fun _ => some (.errno 104)) (fun _ => false) 3).invocations
      = 4 := by decide
example :
    (RetryIfNecessary (fun _ => some (.errno 104)) (fun _ => false) 3).notices
      = [1000000000, 2000000000, 4000000000] := by decide
example :
    (RetryIfNecessary (fun i => if i < 2 then some (.errno 104) else none)
      (fun _ => false) 5).invocations = 3 := by decide
example :
    (RetryIfNecessary (fun _ => some (.errno 104)) (fun _ => true) 3).invocations
      = 1 := by decide
example :
    (RetryIfNecessary (fun _ => some (.errno 104)) (fun _ => false) (-7)).invocations
      = 1 := by decide

/-- Classifying an error and classifying its root cause agree: the source's
initial `err = errors.Cause(err)` is the first match arm of `isRetryable`. -/
theorem isRetryable_Cause : ∀ e : GoError, isRetryable (Cause e) = isRetryable e
  | .causeWrapped err => by
      have h := isRetryable_Cause err
      simpa [Cause, isRetryable] using h
  | .contextCanceled => rfl
  | .contextDeadlineExceeded => rfl
  | .errcodeError _ => rfl
  | .netOpError _ => rfl
  | .urlError _ => rfl
  | .ioEOF => rfl
  | .errno _ => rfl
  | .errcodeErrors _ => rfl
  | .multierrorError _ => rfl
  | .unwrapOnce _ => rfl
  | .errorString _ => rfl

/-- The aggregate loop is `List.all`. -/
theorem isRetryableAll_eq_all :
    ∀ l : List GoError, isRetryableAll l = l.all isRetryable
  | [] => rfl
  | e :: rest => by
      rw [isRetryableAll, List.all_cons, isRetryableAll_eq_all rest]

/-- C5: for every error whose root cause (after causal unwrapping) is a coded
error, `isRetryable` returns false when the code is unauthorized, name
unknown, or manifest unknown, and true for every other code. -/
theorem isRetryable_codedRootCause (e : GoError) (code : String)
    (h : Cause e = .errcodeError code) :
    isRetryable e
      = if code = ErrorCodeUnauthorized ∨ code = ErrorCodeNameUnknown
            ∨ code = ErrorCodeManifestUnknown then false else true := by
  rw [← isRetryable_Cause e, h, isRetryable]

theorem isRetryable_codedRootCause_witness :
    (Cause (.causeWrapped (.errcodeError "TOOMANYREQUESTS"))
        = .errcodeError "TOOMANYREQUESTS") ∧
    isRetryable (.causeWrapped (.errcodeError "TOOMANYREQUESTS"))
      = if "TOOMANYREQUESTS" = ErrorCodeUnauthorized
            ∨ "TOOMANYREQUESTS" = ErrorCodeNameUnknown
            ∨ "TOOMANYREQUESTS" = ErrorCodeManifestUnknown then false else true :=
  ⟨rfl, isRetryable_codedRootCause _ _ rfl⟩

/-- C6: for both aggregate representations, the aggregate is retryable
exactly when every sub-error is independently retryable. -/
theorem isRetryable_aggregates (errs : List GoError) :
    isRetryable (.errcodeErrors errs) = errs.all isRetryable ∧
    isRetryable (.multierrorError errs) = errs.all isRetryable ∧
    (isRetryable (.errcodeErrors errs) = true ↔ ∀ e ∈ errs, isRetryable e = true) ∧
    (isRetryable (.multierrorError errs) = true ↔ ∀ e ∈ errs, isRetryable e = true) := by
  have h : isRetryableAll errs = errs.all isRetryable := isRetryableAll_eq_all errs
  refine ⟨?_, ?_, ?_, ?_⟩ <;> rw [isRetryable, h] <;> simp [List.all_eq_true]

/-- C7: a `*url.Error` whose inner error is exactly `io.EOF` is retryable
without further recursion; for any other inner error the classification is
the recursive classification of the inner error. -/
theorem isRetryable_urlError_eof :
    isRetryable (.urlError .ioEOF) = true ∧
    ∀ err : GoError, err ≠ .ioEOF →
      isRetryable (.urlError err) = isRetryable err := by
  refine ⟨rfl, ?_⟩
  intro err hne
  cases err <;> first | rfl | exact absurd rfl hne

theorem isRetryable_urlError_eof_witness :
    (GoError.errorString "x" ≠ GoError.ioEOF) ∧
    isRetryable (.urlError (.errorString "x")) = isRetryable (.errorString "x") :=
  ⟨fun h => GoError.noConfusion h,
    isRetryable_urlError_eof.2 _ (fun h => GoError.noConfusion h)⟩

/-- Splitting off the first of `n + 1` consecutive recorded delays. -/
theorem delays_range_succ (a n : Nat) :
    (List.range (n + 1)).map (fun j => goDelay (a + j))
      = goDelay a :: (List.range n).map (fun j => goDelay (a + 1 + j)) := by
  rw [List.range_succ_eq_map, List.map_cons, List.map_map]
  refine congrArg₂ _ (by rw [Nat.add_zero]) ?_
  refine List.map_congr_left ?_
  intro j _
  exact congrArg goDelay (by omega)

/-- Closed form of the loop when every operation result is a retryable
failure and cancellation never fires: the loop runs `fuel` full iterations
(`fuel` being `(maxRetry - attempt).toNat`, the number of times the guard
`attempt < MaxRetry` can still pass), makes `fuel` further invocations,
returns the failure of the last one, and emits one notice with delay
`goDelay (attempt + j)` for the iteration with counter `attempt + j`. -/
theorem retryLoop_allFail (op : Nat → GoError) (hop : ∀ i, isRetryable (op i) = true)
    (maxRetry : Int) :
    ∀ (fuel attempt invs : Nat) (notices : List Int) (e : GoError),
      isRetryable e = true →
      fuel = (maxRetry - (attempt : Int)).toNat →
      retryLoop (fun i => some (op i)) (fun _ => false) maxRetry fuel attempt (some e)
          invs notices
        = ⟨some (if fuel = 0 then e else op (invs + fuel - 1)), invs + fuel,
            notices ++ (List.range fuel).map (fun j => goDelay (attempt + j)), false⟩ := by
  intro fuel
  induction fuel with
  | zero =>
      intro attempt invs notices e he hfuel
      simp [retryLoop]
  | succ f ih =>
      intro attempt invs notices e he hfuel
      have hlt : (attempt : Int) < maxRetry := by omega
      rw [retryLoop, if_pos ⟨he, hlt⟩]
      rw [if_neg (fun h => Bool.noConfusion h : ¬(false = true))]
      rw [ih (attempt + 1) (invs + 1) (notices ++ [goDelay attempt]) (op invs) (hop invs)
        (by push_cast; omega)]
      have hres : (if f = 0 then op invs else op (invs + 1 + f - 1))
          = op (invs + (f + 1) - 1) := by
        by_cases hf : f = 0
        · simp [hf]
        · rw [if_neg hf]
          exact congrArg op (by omega : invs + 1 + f - 1 = invs + (f + 1) - 1)
      have hmap := delays_range_succ attempt f
      simp only [RunResult.mk.injEq]
      refine ⟨?_, by omega, ?_, trivial⟩
      · rw [if_neg (Nat.succ_ne_zero f)]
        exact congrArg some hres
      · rw [hmap, List.append_assoc]
        rfl

/-- C1: for an operation that fails with a retryable error on every
invocation and `MaxRetry = n ≥ 0`, with cancellation never firing,
`RetryIfNecessary` invokes the operation exactly `n + 1` times and returns
the failure of the last invocation (invocation index `n`). -/
theorem RetryIfNecessary_allRetryableFailures (op : Nat → GoError)
    (hop : ∀ i, isRetryable (op i) = true) (n : Nat) :
    RetryIfNecessary (fun i => some (op i)) (fun _ => false) (n : Int)
      = ⟨some (op n), n + 1, (List.range n).map (fun j => goDelay j), false⟩ := by
  rw [RetryIfNecessary,
    retryLoop_allFail op hop (n : Int) (n : Int).toNat 0 1 [] (op 0) (hop 0)
      (by push_cast; omega)]
  simp only [RunResult.mk.injEq, Int.toNat_natCast, List.nil_append]
  refine ⟨?_, by omega, by simp, trivial⟩
  by_cases hn : n = 0
  · simp [hn]
  · rw [if_neg hn]
    exact congrArg (some ∘ op) (by omega)

theorem RetryIfNecessary_allRetryableFailures_witness :
    (∀ i : Nat, isRetryable ((fun _ => GoError.errno 104) i) = true) ∧
    RetryIfNecessary (fun _ => some (GoError.errno 104)) (fun _ => false) ((3 : Nat) : Int)
      = ⟨some (GoError.errno 104), 3 + 1, (List.range 3).map (fun j => goDelay j), false⟩ :=
  ⟨fun _ => rfl, RetryIfNecessary_allRetryableFailures (fun _ => .errno 104) (fun _ => rfl) 3⟩

set_option maxRecDepth 4000 in
/-- C8 (amended): in a run that performs its retries (always-failing
retryable operation, no cancellation), the delay recorded for retry `i`
(counting from 0) is the Duration `goDelay i` of the source's int64
computation, and for every `i ≤ 33` — while `2 ^ i` seconds still fits in an
int64 of nanoseconds — that Duration equals `2 ^ i` seconds, so the delay
sequence starts `1, 2, 4, 8, ...` seconds.  From `i = 34` on the int64
product wraps and the recorded Duration is no longer `2 ^ i` seconds (see
the counterexample, where it is negative). -/
theorem RetryIfNecessary_delaySequence (op : Nat → GoError)
    (hop : ∀ i, isRetryable (op i) = true) (n : Nat) :
    (RetryIfNecessary (fun i => some (op i)) (fun _ => false) (n : Int)).notices
      = (List.range n).map (fun i => goDelay i) ∧
    ∀ i : Nat, i ≤ 33 → goDelay i = 2 ^ i * Second := by
  constructor
  · rw [RetryIfNecessary,
      retryLoop_allFail op hop (n : Int) (n : Int).toNat 0 1 [] (op 0) (hop 0)
        (by push_cast; omega)]
    simp
  · decide

theorem RetryIfNecessary_delaySequence_witness :
    (∀ i : Nat, isRetryable ((fun _ => GoError.errno 104) i) = true) ∧
    ((RetryIfNecessary (fun _ => some (GoError.errno 104)) (fun _ => false)
        ((4 : Nat) : Int)).notices = (List.range 4).map (fun i => goDelay i) ∧
      ∀ i : Nat, i ≤ 33 → goDelay i = 2 ^ i * Second) :=
  ⟨fun _ => rfl, RetryIfNecessary_delaySequence (fun _ => .errno 104) (fun _ => rfl) 4⟩

/-- C8 (counterexample to the claim as stated): in the concrete run with an
always-failing retryable operation and `MaxRetry = 35`, the delay recorded
before retry index 34 is the wrapped — negative — Duration `goDelay 34`, not
`2 ^ 34` time units. -/
theorem RetryIfNecessary_delaySequence_counterexample :
    (RetryIfNecessary (fun _ => some (GoError.errno 104)) (fun _ => false) 35).notices.getD 34 0
        = goDelay 34 ∧
    goDelay 34 < 0 ∧
    goDelay 34 ≠ 2 ^ 34 * Second := by
  refine ⟨by decide, by decide, by decide⟩

example : (List.range 4).map goDelay = [Second, 2 * Second, 4 * Second, 8 * Second] := by
  decide
example : goDelay 33 = 2 ^ 33 * Second := by decide
example : goDelay 34 = -1266874889709551616 := by decide

/-- Closed form of the loop when the next `j` operation results are
retryable failures and the one after them is a success, with cancellation
never firing and enough retries left: the loop returns `nil` after `j + 1`
further invocations. -/
theorem retryLoop_eventualSuccess (op : Nat → Option GoError) (maxRetry : Int) :
    ∀ (j fuel attempt invs : Nat) (notices : List Int) (e : GoError),
      isRetryable e = true →
      (∀ i, i < j → ∃ e2, op (invs + i) = some e2 ∧ isRetryable e2 = true) →
      op (invs + j) = none →
      fuel = (maxRetry - (attempt : Int)).toNat →
      j < fuel →
      retryLoop op (fun _ => false) maxRetry fuel attempt (some e) invs notices
        = ⟨none, invs + j + 1,
            notices ++ (List.range (j + 1)).map (fun i => goDelay (attempt + i)), false⟩ := by
  intro j
  induction j with
  | zero =>
      intro fuel attempt invs notices e he hfail hsucc hfuel hlt
      obtain ⟨f, rfl⟩ : ∃ f, fuel = f + 1 := ⟨fuel - 1, by omega⟩
      have hm : (attempt : Int) < maxRetry := by omega
      rw [retryLoop, if_pos ⟨he, hm⟩,
        if_neg (fun h => Bool.noConfusion h : ¬(false = true)),
        show op invs = none by simpa using hsucc, retryLoop]
      rfl
  | succ j ih =>
      intro fuel attempt invs notices e he hfail hsucc hfuel hlt
      obtain ⟨f, rfl⟩ : ∃ f, fuel = f + 1 := ⟨fuel - 1, by omega⟩
      have hm : (attempt : Int) < maxRetry := by omega
      obtain ⟨e2, h0, he2⟩ := hfail 0 (Nat.succ_pos j)
      rw [retryLoop, if_pos ⟨he, hm⟩,
        if_neg (fun h => Bool.noConfusion h : ¬(false = true)),
        show op invs = some e2 by simpa using h0]
      rw [ih f (attempt + 1) (invs + 1) (notices ++ [goDelay attempt]) e2 he2
        (fun i hi => by
          obtain ⟨e3, h3, he3⟩ := hfail (i + 1) (by omega)
          exact ⟨e3, by rw [show invs + 1 + i = invs + (i + 1) from by omega]; exact h3, he3⟩)
        (by rw [show invs + 1 + j = invs + (j + 1) from by omega]; exact hsucc)
        (by push_cast; omega) (by omega)]
      simp only [RunResult.mk.injEq]
      refine ⟨trivial, by omega, ?_, trivial⟩
      rw [delays_range_succ attempt (j + 1), List.append_assoc]
      rfl

/-- C2: for an operation that fails with retryable errors on its first `k`
invocations and succeeds on the next, and `MaxRetry = n ≥ k`, with
cancellation never firing, `RetryIfNecessary` returns success (`nil`) and the
operation is invoked exactly `k + 1` times. -/
theorem RetryIfNecessary_eventualSuccess (op : Nat → Option GoError) (k n : Nat)
    (hfail : ∀ i, i < k → ∃ e, op i = some e ∧ isRetryable e = true)
    (hsucc : op k = none) (hkn : k ≤ n) :
    (RetryIfNecessary op (fun _ => false) (n : Int)).result = none ∧
    (RetryIfNecessary op (fun _ => false) (n : Int)).invocations = k + 1 := by
  rw [RetryIfNecessary]
  cases k with
  | zero =>
      rw [hsucc, retryLoop]
      exact ⟨rfl, rfl⟩
  | succ j =>
      obtain ⟨e, h0, he⟩ := hfail 0 (Nat.succ_pos j)
      rw [h0, retryLoop_eventualSuccess op (n : Int) j (n : Int).toNat 0 1 [] e he
        (fun i hi => by
          rw [show (1 : Nat) + i = i + 1 from by omega]
          exact hfail (i + 1) (by omega))
        (by rw [show (1 : Nat) + j = j + 1 from by omega]; exact hsucc)
        (by push_cast; omega) (by omega)]
      exact ⟨rfl, by simp; omega⟩

theorem RetryIfNecessary_eventualSuccess_witness :
    ((RetryIfNecessary (fun i => if i = 0 then some (.errno 104) else none)
        (fun _ => false) ((2 : Nat) : Int)).result = none) ∧
    (RetryIfNecessary (fun i => if i = 0 then some (.errno 104) else none)
        (fun _ => false) ((2 : Nat) : Int)).invocations = 1 + 1 :=
  RetryIfNecessary_eventualSuccess _ 1 2
    (fun i hi => ⟨.errno 104, by rw [show i = 0 from by omega]; exact ⟨rfl, rfl⟩⟩)
    rfl (by omega)

/-- When the loop guard fails on a pending error — the error is not
retryable or no retries remain — the loop exits at once with that error and
no further effect. -/
theorem retryLoop_guardFalse (op : Nat → Option GoError) (cancel : Nat → Bool)
    (maxRetry : Int) (fuel attempt invs : Nat) (notices : List Int) (e : GoError)
    (h : ¬(isRetryable e = true ∧ ((attempt : Nat) : Int) < maxRetry)) :
    retryLoop op cancel maxRetry fuel attempt (some e) invs notices
      = ⟨some e, invs, notices, false⟩ := by
  cases fuel with
  | zero => rw [retryLoop, if_neg h]
  | succ f => rw [retryLoop, if_neg h]

/-- C3: for an operation whose first invocation fails with a non-retryable
error, `RetryIfNecessary` invokes the operation exactly once and returns that
error unchanged, with no delay and no notice, whatever the cancellation
signal and `MaxRetry` are. -/
theorem RetryIfNecessary_nonRetryableFirst (op : Nat → Option GoError)
    (cancel : Nat → Bool) (maxRetry : Int) (e : GoError)
    (h0 : op 0 = some e) (hnr : isRetryable e = false) :
    RetryIfNecessary op cancel maxRetry = ⟨some e, 1, [], false⟩ := by
  have hguard : ¬(isRetryable e = true ∧ (((0 : Nat) : Int)) < maxRetry) := by
    rw [hnr]
    rintro ⟨h, -⟩
    exact Bool.noConfusion h
  rw [RetryIfNecessary, h0, retryLoop_guardFalse op cancel maxRetry _ 0 1 [] e hguard]

theorem RetryIfNecessary_nonRetryableFirst_witness :
    ((fun _ : Nat => some (GoError.errcodeError "UNAUTHORIZED")) 0
        = some (GoError.errcodeError "UNAUTHORIZED")) ∧
    (isRetryable (.errcodeError "UNAUTHORIZED") = false) ∧
    RetryIfNecessary (fun _ => some (.errcodeError "UNAUTHORIZED")) (fun _ => true) 5
      = ⟨some (.errcodeError "UNAUTHORIZED"), 1, [], false⟩ :=
  ⟨rfl, by decide,
    RetryIfNecessary_nonRetryableFirst _ _ 5 _ rfl (by decide)⟩

/-- Whenever cancellation wins the race during the wait of an iteration, the
loop returns the current (last observed) error at once — never a
cancellation-specific one — without invoking the operation again; the notice
of that iteration was already emitted before the wait. -/
theorem retryLoop_cancelFires (op : Nat → Option GoError) (cancel : Nat → Bool)
    (maxRetry : Int) (f attempt invs : Nat) (notices : List Int) (e : GoError)
    (he : isRetryable e = true) (hlt : (attempt : Int) < maxRetry)
    (hc : cancel attempt = true) :
    retryLoop op cancel maxRetry (f + 1) attempt (some e) invs notices
      = ⟨some e, invs, notices ++ [goDelay attempt], true⟩ := by
  rw [retryLoop, if_pos ⟨he, hlt⟩, if_pos hc]

/-- C4: if the first invocation fails with a retryable error and the
cancellation signal fires during the delay before the second attempt,
`RetryIfNecessary` returns the error of the first attempt — not a
cancellation-specific error — and the operation is never invoked a second
time. -/
theorem RetryIfNecessary_cancelDuringFirstWait (op : Nat → Option GoError)
    (cancel : Nat → Bool) (maxRetry : Int) (e : GoError)
    (h0 : op 0 = some e) (he : isRetryable e = true)
    (hm : 0 < maxRetry) (hc : cancel 0 = true) :
    RetryIfNecessary op cancel maxRetry = ⟨some e, 1, [Second], true⟩ := by
  obtain ⟨f, hf⟩ : ∃ f, maxRetry.toNat = f + 1 := ⟨maxRetry.toNat - 1, by omega⟩
  rw [RetryIfNecessary, h0, hf,
    retryLoop_cancelFires op cancel maxRetry f 0 1 [] e he (by exact_mod_cast hm) hc,
    show goDelay 0 = Second by decide]
  rfl

theorem RetryIfNecessary_cancelDuringFirstWait_witness :
    ((fun _ : Nat => some (GoError.errno 104)) 0 = some (GoError.errno 104)) ∧
    (isRetryable (.errno 104) = true) ∧
    RetryIfNecessary (fun _ => some (.errno 104)) (fun _ => true) 3
      = ⟨some (.errno 104), 1, [Second], true⟩ :=
  ⟨rfl, by decide,
    RetryIfNecessary_cancelDuringFirstWait _ _ 3 _ rfl (by decide) (by decide) rfl⟩

/-- The loop never loses invocations: the final count is at least the count
on entry. -/
theorem retryLoop_invocations_ge (op : Nat → Option GoError) (cancel : Nat → Bool)
    (maxRetry : Int) :
    ∀ (fuel attempt invs : Nat) (notices : List Int) (err : Option GoError),
      invs ≤ (retryLoop op cancel maxRetry fuel attempt err invs notices).invocations := by
  intro fuel
  induction fuel with
  | zero =>
      intro attempt invs notices err
      cases err with
      | none => rw [retryLoop]
      | some e => rw [retryLoop]; split <;> exact le_refl invs
  | succ f ih =>
      intro attempt invs notices err
      cases err with
      | none => rw [retryLoop]
      | some e =>
          rw [retryLoop]
          split
          · split
            · exact le_refl invs
            · exact le_trans (Nat.le_succ invs)
                (ih (attempt + 1) (invs + 1) (notices ++ [goDelay attempt]) (op invs))
          · exact le_refl invs

/-- Exact bookkeeping of emitted notices: along every path, the number of
notices the loop adds equals the number of re-invocations it makes, plus one
exactly when the run ends through the cancellation branch (whose notice was
emitted before the wait that cancellation interrupted). -/
theorem retryLoop_noticeCount (op : Nat → Option GoError) (cancel : Nat → Bool)
    (maxRetry : Int) :
    ∀ (fuel attempt invs : Nat) (notices : List Int) (err : Option GoError),
      (retryLoop op cancel maxRetry fuel attempt err invs notices).notices.length + invs
        = notices.length
          + (retryLoop op cancel maxRetry fuel attempt err invs notices).invocations
          + (if (retryLoop op cancel maxRetry fuel attempt err invs notices).cancelled
              then 1 else 0) := by
  intro fuel
  induction fuel with
  | zero =>
      intro attempt invs notices err
      cases err with
      | none => rw [retryLoop]; simp
      | some e => rw [retryLoop]; split <;> simp
  | succ f ih =>
      intro attempt invs notices err
      cases err with
      | none => rw [retryLoop]; simp
      | some e =>
          rw [retryLoop]
          split
          · split
            · simp
              omega
            · have h := ih (attempt + 1) (invs + 1) (notices ++ [goDelay attempt]) (op invs)
              simp only [List.length_append, List.length_cons, List.length_nil] at h ⊢
              omega
          · simp

/-- C9 (amended): the notice count equals the number of re-invocations after
the first attempt on every termination path on which cancellation does not
fire; when cancellation fires during a wait, one extra notice — the one for
the retry that the cancellation aborted — has already been emitted, so the
count is the number of re-invocations plus one. -/
theorem RetryIfNecessary_noticeCount (op : Nat → Option GoError) (cancel : Nat → Bool)
    (maxRetry : Int) :
    (RetryIfNecessary op cancel maxRetry).notices.length
      = (RetryIfNecessary op cancel maxRetry).invocations - 1
        + (if (RetryIfNecessary op cancel maxRetry).cancelled then 1 else 0) := by
  have h := retryLoop_noticeCount op cancel maxRetry maxRetry.toNat 0 1 [] (op 0)
  have h2 := retryLoop_invocations_ge op cancel maxRetry maxRetry.toNat 0 1 [] (op 0)
  rw [RetryIfNecessary]
  simp only [List.length_nil] at h
  set R := retryLoop op cancel maxRetry maxRetry.toNat 0 (op 0) 1 [] with hR
  by_cases hc : R.cancelled = true <;> simp [hc] at h ⊢ <;> omega

/-- C9 (counterexample to the claim as stated): with `MaxRetry = 1`, an
always-failing retryable operation, and cancellation firing during the first
wait, exactly one notice is emitted while the operation is re-invoked zero
times after the first attempt. -/
theorem RetryIfNecessary_noticeCount_counterexample :
    (RetryIfNecessary (fun _ => some (.errno 104)) (fun _ => true) 1).notices.length = 1 ∧
    (RetryIfNecessary (fun _ => some (.errno 104)) (fun _ => true) 1).invocations - 1 = 0 ∧
    (RetryIfNecessary (fun _ => some (.errno 104)) (fun _ => true) 1).notices.length
      ≠ (RetryIfNecessary (fun _ => some (.errno 104)) (fun _ => true) 1).invocations - 1 := by
  refine ⟨?_, ?_, ?_⟩ <;> decide

/-- With `MaxRetry ≤ 0` the loop guard `attempt < MaxRetry` is false at
`attempt = 0`, so the loop body never runs. -/
theorem RetryIfNecessary_notPositive (op : Nat → Option GoError) (cancel : Nat → Bool)
    (maxRetry : Int) (hm : maxRetry ≤ 0) :
    RetryIfNecessary op cancel maxRetry = ⟨op 0, 1, [], false⟩ := by
  rw [RetryIfNecessary]
  cases h0 : op 0 with
  | none => rw [retryLoop]
  | some e =>
      rw [retryLoop_guardFalse]
      rintro ⟨-, hlt⟩
      omega

/-- C10: for every negative `MaxRetry` (outside the non-negative
precondition) the function still behaves totally and exactly like
`MaxRetry = 0`: one invocation, no delay or notice, and the first result
(error or `nil`) returned verbatim. -/
theorem RetryIfNecessary_negativeMaxRetry (op : Nat → Option GoError)
    (cancel : Nat → Bool) (maxRetry : Int) (hm : maxRetry < 0) :
    RetryIfNecessary op cancel maxRetry = ⟨op 0, 1, [], false⟩ ∧
    RetryIfNecessary op cancel maxRetry = RetryIfNecessary op cancel 0 := by
  refine ⟨RetryIfNecessary_notPositive op cancel maxRetry (le_of_lt hm), ?_⟩
  rw [RetryIfNecessary_notPositive op cancel maxRetry (le_of_lt hm),
    RetryIfNecessary_notPositive op cancel 0 le_rfl]

theorem RetryIfNecessary_negativeMaxRetry_witness :
    ((-1 : Int) < 0) ∧
    (RetryIfNecessary (fun _ => some (.errno 104)) (fun _ => false) (-1)
        = ⟨some (.errno 104), 1, [], false⟩) ∧
    RetryIfNecessary (fun _ => some (.errno 104)) (fun _ => false) (-1)
      = RetryIfNecessary (fun _ => some (.errno 104)) (fun _ => false) 0 :=
  ⟨by decide, (RetryIfNecessary_negativeMaxRetry _ _ _ (by decide)).1,
    (RetryIfNecessary_negativeMaxRetry _ _ _ (by decide)).2⟩

end Retry
